import Mathlib

/-!
Shallow embedding of the insta-translate pipeline: the SQLite-backed
DatabaseService (settings and translations tables), the TranslationForm
language resolution, the TranslateScreen transcription flow, and the
SpeakerScreen refine-and-persist effect.  Effectful JavaScript is modelled
by passing the outcome of each external call (database I/O, network fetch)
as an explicit parameter; try/catch handlers become the corresponding
branch on that outcome.
-/

set_option autoImplicit false

namespace InstaTranslate

/-- A row of the `settings` table.  `language` is `Option String`: `none`
models a SQL NULL / JS undefined value. -/
structure SettingsRecord where
  id : Nat
  language : Option String
deriving Repr, DecidableEq

/-- A row of the `translations` table (columns `id`, `original_text`,
`language`, `translated_text`). -/
structure TranslationRecord where
  id : Nat
  originalText : String
  language : String
  translatedText : String
deriving Repr, DecidableEq

/-- The persisted database: the two tables plus the AUTOINCREMENT counter
for `translations.id`. -/
structure DbState where
  settings : List SettingsRecord
  translations : List TranslationRecord
  nextId : Nat
deriving Repr, DecidableEq

/-- JavaScript `v || d` for a possibly-null string: the fallback `d` is used
when `v` is null/undefined or the empty string (both falsy). -/
def jsOr : Option String → String → String
  | none, d => d
  | some s, d => if s = "" then d else s

/-- A database with both tables empty, as created by the
`CREATE TABLE IF NOT EXISTS` statements on a fresh file.  SQLite
AUTOINCREMENT starts at 1. -/
def emptyDb : DbState :=
  { settings := [], translations := [], nextId := 1 }

/-- `setupDatabase` opens the database and creates the tables if absent:
on a fresh install (no prior state) it yields the empty database, and it
leaves an existing database untouched. -/
def setupDatabase : Option DbState → DbState
  | none => emptyDb
  | some st => st

/-- `loadInitialData`: if the `settings` table has no rows, insert the
default row `(1, 'en')`; otherwise leave the database unchanged. -/
def loadInitialData (st : DbState) : DbState :=
  if st.settings.length = 0 then
    { st with settings := [{ id := 1, language := some "en" }] }
  else st

/-- Row predicate of
`SELECT * FROM translations WHERE original_text = ? AND language = ?`. -/
def matchesKey (orig lang : String) (r : TranslationRecord) : Bool :=
  r.originalText == orig && r.language == lang

/-- `checkIfTranslationExists(originalText, language)`: the first row
matching both columns, or null.  `fail = true` models the underlying
SQLite call throwing; the catch handler logs and returns null. -/
def checkIfTranslationExists (fail : Bool) (st : DbState)
    (originalText language : String) : Option TranslationRecord :=
  if fail then none
  else st.translations.find? (matchesKey originalText language)

/-- `addTranslation(originalText, language, translatedText)`: INSERT a new
row with the next AUTOINCREMENT id.  `fail = true` models the INSERT
throwing; the catch handler logs, swallows the error and leaves the
database unchanged (the promise still resolves). -/
def addTranslation (fail : Bool) (st : DbState)
    (originalText language translatedText : String) : DbState :=
  if fail then st
  else
    { st with
      translations := st.translations ++
        [{ id := st.nextId, originalText := originalText,
           language := language, translatedText := translatedText }]
      nextId := st.nextId + 1 }

/-- `fetchTranslations()`: all rows of `translations`, or `[]` when the
underlying call throws (caught and logged). -/
def fetchTranslations (fail : Bool) (st : DbState) : List TranslationRecord :=
  if fail then [] else st.translations

/-- `fetchSettings()`: all rows of `settings`, or `[]` when the underlying
call throws (caught and logged). -/
def fetchSettings (fail : Bool) (st : DbState) : List SettingsRecord :=
  if fail then [] else st.settings

/-- `updateSettings(language)`: `UPDATE settings SET language = ? WHERE
id = 1`.  `fail = true` models the UPDATE throwing; the error is caught,
logged and swallowed. -/
def updateSettings (fail : Bool) (st : DbState) (language : String) : DbState :=
  if fail then st
  else
    { st with
      settings := st.settings.map fun s =>
        if s.id = 1 then { s with language := some language } else s }

/-- `deleteTranslation(id)`: `DELETE FROM translations WHERE id = ?`.
`fail = true` models the DELETE throwing; the error is caught, logged and
swallowed. -/
def deleteTranslation (fail : Bool) (st : DbState) (idv : Nat) : DbState :=
  if fail then st
  else { st with translations := st.translations.filter fun r => r.id != idv }

/-- One entry of the supported-language list (LanguageConstants). -/
structure LanguageOption where
  label : String
  value : String
deriving Repr, DecidableEq

/-- The `languages` array of LanguageConstants.js. -/
def languages : List LanguageOption :=
  [ { label := "English", value := "en" },
    { label := "French", value := "fr" },
    { label := "Spanish", value := "es" },
    { label := "German", value := "de" },
    { label := "Chinese (Simplified)", value := "zh-CN" },
    { label := "Japanese", value := "ja" },
    { label := "Italian", value := "it" },
    { label := "Portuguese", value := "pt" },
    { label := "Russian", value := "ru" },
    { label := "Korean", value := "ko" },
    { label := "Hindi", value := "hi" },
    { label := "Arabic", value := "ar" },
    { label := "Dutch", value := "nl" },
    { label := "Swedish", value := "sv" },
    { label := "Norwegian", value := "no" },
    { label := "Danish", value := "da" } ]

/-- The `languageMapping` object of LanguageMapping.js: short language code
to locale-qualified code. -/
def languageMapping : List (String × String) :=
  [ ("en", "en-US"), ("fr", "fr-FR"), ("es", "es-ES"), ("de", "de-DE"),
    ("zh-CN", "cmn-Hans-CN"), ("ja", "ja-JP"), ("it", "it-IT"),
    ("pt", "pt-PT"), ("ru", "ru-RU"), ("ko", "ko-KR"), ("hi", "hi-IN"),
    ("ar", "ar-SA"), ("nl", "nl-NL"), ("sv", "sv-SE"), ("no", "no-NO"),
    ("da", "da-DK") ]

/-! ### TranslationForm (src/components/TranslationForm.js) -/

/-- The component state that `loadSettings` establishes: the stored source
language (null until settings load), the candidate target-language list
shown by the picker, and the picker's selected value. -/
structure FormState where
  storedLanguage : Option String
  filteredLanguages : List LanguageOption
  selectedLanguage : Option String
deriving Repr, DecidableEq

/-- `loadSettings` of TranslationForm: reads the settings rows; when a row
exists, the stored language (falling back to "en" when falsy) is removed
from the `languages` list and the first remaining entry is pre-selected;
when no row exists, the full `languages` list is used and its first entry
pre-selected. -/
def loadSettings (settings : List SettingsRecord) : FormState :=
  match settings.head? with
  | some s =>
      let language := jsOr s.language "en"
      let updatedLanguages := languages.filter fun l => l.value != language
      { storedLanguage := some language
        filteredLanguages := updatedLanguages
        selectedLanguage := updatedLanguages.head?.map LanguageOption.value }
  | none =>
      { storedLanguage := none
        filteredLanguages := languages
        selectedLanguage := languages.head?.map LanguageOption.value }

/-- The source language `handleTranslate` sends to the translate API:
`storedLanguage || "en"`. -/
def handleTranslateSource (fs : FormState) : String :=
  jsOr fs.storedLanguage "en"

/-- The candidate target-language codes the picker offers (one per
`filteredLanguages` entry). -/
def candidateTargets (fs : FormState) : List String :=
  fs.filteredLanguages.map LanguageOption.value

/-! ### SettingsForm (src/components/SettingsForm.js) -/

/-- The language SettingsForm displays after its `loadSettings` ran: the
`useState("en")` initial value when no settings row exists, otherwise the
row's language with "en" as the falsy fallback. -/
def settingsFormLanguage (settings : List SettingsRecord) : String :=
  match settings.head? with
  | some s => jsOr s.language "en"
  | none => "en"

/-! ### TranslateScreen (transcription stage) -/

/-- The mobile platform, which fixes the audio encoding parameters. -/
inductive Platform where
  | ios
  | android
deriving Repr, DecidableEq

/-- `Platform.OS === "android" ? "WEBM_OPUS" : "LINEAR16"`. -/
def encodingFor : Platform → String
  | .android => "WEBM_OPUS"
  | .ios => "LINEAR16"

/-- `Platform.OS === "android" ? 16000 : 44100`. -/
def sampleRateFor : Platform → Nat
  | .android => 16000
  | .ios => 44100

/-- The short source-language code `sendAudioForTranscription` resolves:
the stored settings language when a row exists and its language is truthy,
otherwise "en-GB". -/
def transcriptionShortCode (settings : List SettingsRecord) : String :=
  match settings.head? with
  | some s =>
      match s.language with
      | some l => if l = "" then "en-GB" else l
      | none => "en-GB"
  | none => "en-GB"

/-- `languageMapping[shortCode] || "en-GB"`. -/
def mapLocale (shortCode : String) : String :=
  jsOr (languageMapping.lookup shortCode) "en-GB"

/-- The inputs of one TranslateScreen transcription attempt: the recording
URI passed by navigation, whether `FileSystem.getInfoAsync` reports the
file as existing, and the base64 content read from it. -/
structure CaptureInput where
  recordingUri : String
  fileExists : Bool
  base64Content : String
deriving Repr, DecidableEq

/-- The externally visible outcome of the TranslateScreen effect: either
the effect never runs (falsy `recordingUri`), or it aborts with the
audio-unavailable alert before any network call, or it issues a
speech-recognition request with the given config and audio content. -/
inductive TranscribeAction where
  | noRun
  | audioUnavailable
  | request (languageCode encoding : String) (sampleRateHertz : Nat)
      (content : String)
deriving Repr, DecidableEq

/-- The TranslateScreen `useEffect` plus `sendAudioForTranscription` up to
the speech API call: guard on a truthy `recordingUri`, resolve the locale
from settings, abort with the audio-unavailable alert when the file does
not exist, otherwise issue the request with the platform's encoding
parameters and the file's base64 content. -/
def sendAudioForTranscription (settings : List SettingsRecord)
    (platform : Platform) (inp : CaptureInput) : TranscribeAction :=
  if inp.recordingUri = "" then .noRun
  else
    let languageCode := mapLocale (transcriptionShortCode settings)
    if inp.fileExists then
      .request languageCode (encodingFor platform) (sampleRateFor platform)
        inp.base64Content
    else .audioUnavailable

/-! ### SpeakerScreen (refinement and persistence) -/

/-- The navigation parameters SpeakerScreen receives: the transcript, the
chosen target language, and the raw translation from TranslationForm. -/
structure RouteParams where
  transcription : String
  selectedLanguage : String
  translatedText : String
deriving Repr, DecidableEq

/-- Outcome of the OpenAI refinement fetch: the request threw or returned
a non-ok status, or it succeeded and `data.choices[0]?.text?.trim()`
produced the given optional string. -/
inductive RefineOutcome where
  | error
  | ok (refined : Option String)
deriving Repr, DecidableEq

/-- `refineTextWithOpenAI`: the `refinedText` state after the call, given
the state before it.  On error the catch handler alerts and leaves the
state unchanged; on success the state is updated only when the extracted
text is truthy (present and non-empty). -/
def refineTextWithOpenAI (refinedText : String)
    (outcome : RefineOutcome) : String :=
  match outcome with
  | .error => refinedText
  | .ok none => refinedText
  | .ok (some refined) => if refined = "" then refinedText else refined

/-- `checkTranslation`: look up the (transcription, selectedLanguage) pair
and insert `refinedText` for it only when no record was found. -/
def checkTranslation (lookupFail addFail : Bool) (st : DbState)
    (p : RouteParams) (refinedText : String) : DbState :=
  match checkIfTranslationExists lookupFail st p.transcription
      p.selectedLanguage with
  | some _ => st
  | none => addTranslation addFail st p.transcription p.selectedLanguage
      refinedText

/-- The `useState(translatedText)` initial value of the `refinedText`
state. -/
def speakerInitialRefinedText (p : RouteParams) : String :=
  p.translatedText

/-- Result of one SpeakerScreen effect run: the database after
`checkTranslation` and the `refinedText` state after
`refineTextWithOpenAI`. -/
structure EffectResult where
  db : DbState
  refinedText : String
deriving Repr, DecidableEq

/-- One run of the SpeakerScreen `useEffect` body, starting from the
`refinedText` state of the render that scheduled it: `checkTranslation`
reads that state through its closure (the insert therefore uses the value
from before any `setRefinedText`), while `refineTextWithOpenAI` computes
the state the screen displays afterwards. -/
def effectRun (p : RouteParams) (refinedText : String)
    (outcome : RefineOutcome) (lookupFail addFail : Bool)
    (st : DbState) : EffectResult :=
  { db := checkTranslation lookupFail addFail st p refinedText
    refinedText := refineTextWithOpenAI refinedText outcome }

/-- The three persistence outcomes of a run, one per control-flow branch of
`checkTranslation`: an existing record was found, a new row was inserted,
or the insert threw and was caught. -/
inductive PersistStatus where
  | new
  | existing
  | failed
deriving Repr, DecidableEq

/-- Which `checkTranslation` branch a run takes. -/
def persistenceStatus (lookupFail addFail : Bool) (st : DbState)
    (p : RouteParams) : PersistStatus :=
  match checkIfTranslationExists lookupFail st p.transcription
      p.selectedLanguage with
  | some _ => .existing
  | none => if addFail then .failed else .new

/-- The caller-facing outcome of one persistence-phase run. -/
structure RunResult where
  text : String
  language : String
  persistence : PersistStatus
  db : DbState
deriving Repr, DecidableEq

/-- One complete SpeakerScreen run as seen by its caller, starting from the
initial `refinedText` state: the text the screen ends up displaying, the
language it is in, which persistence branch was taken, and the resulting
database.  Every branch of the source catches its own errors, so the run
always produces a `RunResult` (the promise resolves). -/
def speakerRun (p : RouteParams) (outcome : RefineOutcome)
    (lookupFail addFail : Bool) (st : DbState) : RunResult :=
  let er := effectRun p (speakerInitialRefinedText p) outcome lookupFail
    addFail st
  { text := er.refinedText
    language := p.selectedLanguage
    persistence := persistenceStatus lookupFail addFail st p
    db := er.db }

/-! ### Pipeline runs and the dedup invariant -/

/-- The database state at application start: `setupDatabase` on a fresh
install followed by `loadInitialData`. -/
def initDb : DbState :=
  loadInitialData (setupDatabase none)

/-- The database after one completed pipeline run (no store failures) that
reached SpeakerScreen with the given navigation parameters and refinement
outcome. -/
def completedRun (p : RouteParams) (o : RefineOutcome) (st : DbState) :
    DbState :=
  (speakerRun p o false false st).db

/-- The database after a sequence of completed pipeline runs starting from
application start. -/
def runSequence (runs : List (RouteParams × RefineOutcome)) : DbState :=
  runs.foldl (fun st pr => completedRun pr.1 pr.2 st) initDb

/-- Two translation rows differ on the (originalText, language) key. -/
def KeyDistinct (a b : TranslationRecord) : Prop :=
  ¬ (a.originalText = b.originalText ∧ a.language = b.language)

/-- No two rows of the list share an (originalText, language) key. -/
def NoDupKeys (l : List TranslationRecord) : Prop :=
  l.Pairwise KeyDistinct

theorem matchesKey_iff (orig lang : String) (r : TranslationRecord) :
    matchesKey orig lang r = true ↔
      r.originalText = orig ∧ r.language = lang := by
  simp [matchesKey]

theorem checkIfTranslationExists_eq_none_iff (st : DbState)
    (orig lang : String) :
    checkIfTranslationExists false st orig lang = none ↔
      ∀ r ∈ st.translations, ¬ (r.originalText = orig ∧ r.language = lang) := by
  simp [checkIfTranslationExists, List.find?_eq_none, matchesKey]

theorem completedRun_eq (p : RouteParams) (o : RefineOutcome)
    (st : DbState) :
    completedRun p o st = checkTranslation false false st p p.translatedText :=
  rfl

theorem completedRun_preserves_noDupKeys (p : RouteParams)
    (o : RefineOutcome) (st : DbState) (h : NoDupKeys st.translations) :
    NoDupKeys (completedRun p o st).translations := by
  rw [completedRun_eq]
  unfold checkTranslation
  cases hfind : checkIfTranslationExists false st p.transcription
      p.selectedLanguage with
  | some r => exact h
  | none =>
      rw [checkIfTranslationExists_eq_none_iff] at hfind
      simp only [addTranslation, if_neg Bool.false_ne_true, Bool.false_eq_true,
        if_false]
      unfold NoDupKeys
      rw [List.pairwise_append]
      refine ⟨h, List.pairwise_singleton _ _, ?_⟩
      intro a ha b hb
      simp only [List.mem_singleton] at hb
      subst hb
      intro hk
      exact hfind a ha ⟨hk.1, hk.2⟩

theorem runSequence_noDupKeys (runs : List (RouteParams × RefineOutcome)) :
    NoDupKeys (runSequence runs).translations := by
  unfold runSequence
  have hinit : NoDupKeys initDb.translations := List.Pairwise.nil
  generalize initDb = st at hinit ⊢
  induction runs generalizing st with
  | nil => exact hinit
  | cons hd tl ih =>
      exact ih _ (completedRun_preserves_noDupKeys hd.1 hd.2 st hinit)

theorem checkTranslation_found (lf af : Bool) (st : DbState)
    (p : RouteParams) (txt : String) (r : TranslationRecord)
    (h : checkIfTranslationExists lf st p.transcription p.selectedLanguage =
      some r) :
    checkTranslation lf af st p txt = st := by
  unfold checkTranslation
  rw [h]

theorem checkTranslation_not_found (lf af : Bool) (st : DbState)
    (p : RouteParams) (txt : String)
    (h : checkIfTranslationExists lf st p.transcription p.selectedLanguage =
      none) :
    checkTranslation lf af st p txt =
      addTranslation af st p.transcription p.selectedLanguage txt := by
  unfold checkTranslation
  rw [h]

/-- C1: across any sequence of completed pipeline runs from application
start, the translations table never holds two rows with the same
(originalText, language) pair; and two runs with identical transcript and
target language leave exactly one row for that pair, because the second
run's lookup finds the first run's row and performs no write. -/
theorem pipeline_soft_unique_key (runs : List (RouteParams × RefineOutcome))
    (p q : RouteParams) (o₁ o₂ : RefineOutcome)
    (ht : q.transcription = p.transcription)
    (hl : q.selectedLanguage = p.selectedLanguage) :
    NoDupKeys (runSequence runs).translations ∧
    (completedRun q o₂ (completedRun p o₁ initDb)).translations.countP
      (matchesKey p.transcription p.selectedLanguage) = 1 := by
  refine ⟨runSequence_noDupKeys runs, ?_⟩
  have e1 : completedRun p o₁ initDb =
      { settings := [{ id := 1, language := some "en" }],
        translations := [{ id := 1,
                           originalText := p.transcription,
                           language := p.selectedLanguage,
                           translatedText := p.translatedText }],
        nextId := 2 } := rfl
  have hsome : checkIfTranslationExists false (completedRun p o₁ initDb)
      q.transcription q.selectedLanguage =
      some { id := 1,
             originalText := p.transcription,
             language := p.selectedLanguage,
             translatedText := p.translatedText } := by
    rw [e1]
    simp [checkIfTranslationExists, matchesKey, ht, hl]
  have e2 : completedRun q o₂ (completedRun p o₁ initDb) =
      completedRun p o₁ initDb := by
    rw [completedRun_eq]
    exact checkTranslation_found _ _ _ _ _ _ hsome
  rw [e2, e1]
  simp [List.countP_cons, matchesKey]

/-- Witness for C1 at the spec's own scenario (transcript "Bonjour",
target "en"). -/
theorem pipeline_soft_unique_key_witness :
    NoDupKeys (runSequence []).translations ∧
    (completedRun ⟨"Bonjour", "en", "Hello"⟩ RefineOutcome.error
        (completedRun ⟨"Bonjour", "en", "Hello"⟩ RefineOutcome.error
          initDb)).translations.countP
      (matchesKey "Bonjour" "en") = 1 :=
  pipeline_soft_unique_key [] ⟨"Bonjour", "en", "Hello"⟩
    ⟨"Bonjour", "en", "Hello"⟩ RefineOutcome.error RefineOutcome.error
    rfl rfl

theorem jsOr_some_of_ne_empty (s d : String) (h : s ≠ "") :
    jsOr (some s) d = s := by
  simp [jsOr, h]

theorem jsOr_ne_empty (v : Option String) (d : String) (hd : d ≠ "") :
    jsOr v d ≠ "" := by
  cases v with
  | none => exact hd
  | some s =>
      by_cases hs : s = ""
      · simp [jsOr, hs]
        exact hd
      · simp [jsOr, hs]

/-- C2 counterexample: when the settings read yields no row (the table is
empty, or the read failed and was converted to `[]`), the resolved source
language is "en" yet the candidate list offered to translation is the full
`languages` list, which contains "en". -/
theorem target_includes_source_on_empty_settings :
    handleTranslateSource (loadSettings []) = "en" ∧
    "en" ∈ candidateTargets (loadSettings []) := by
  decide

/-- C2 amended: whenever the settings read returns at least one row, the
candidate target-language list excludes the resolved source language. -/
theorem target_excludes_source_of_settings_row
    (settings : List SettingsRecord) (s : SettingsRecord)
    (h : settings.head? = some s) :
    handleTranslateSource (loadSettings settings) ∉
      candidateTargets (loadSettings settings) := by
  simp only [loadSettings, h, handleTranslateSource, candidateTargets]
  have hne : jsOr s.language "en" ≠ "" :=
    jsOr_ne_empty s.language "en" (by decide)
  rw [jsOr_some_of_ne_empty _ _ hne]
  intro hmem
  simp only [List.mem_map] at hmem
  obtain ⟨l, hl, hv⟩ := hmem
  rw [List.mem_filter] at hl
  have hbne := hl.2
  simp [hv] at hbne

/-- Witness for C2 (amended) on the seeded default settings row. -/
theorem target_excludes_source_of_settings_row_witness :
    handleTranslateSource (loadSettings [{ id := 1, language := some "en" }]) ∉
      candidateTargets (loadSettings [{ id := 1, language := some "en" }]) :=
  target_excludes_source_of_settings_row _ _ rfl

/-- C3: a SpeakerScreen run always resolves with the displayed text, its
language, and one of the three persistence branches; when the lookup finds
no record and the insert fails, the run still resolves with the computed
text and the failed branch, leaving the database unchanged. -/
theorem speaker_run_always_resolves (p : RouteParams) (o : RefineOutcome)
    (lf af : Bool) (st : DbState) :
    ((speakerRun p o lf af st).persistence = PersistStatus.new ∨
     (speakerRun p o lf af st).persistence = PersistStatus.existing ∨
     (speakerRun p o lf af st).persistence = PersistStatus.failed) ∧
    (speakerRun p o lf af st).text = refineTextWithOpenAI p.translatedText o ∧
    (speakerRun p o lf af st).language = p.selectedLanguage ∧
    (checkIfTranslationExists lf st p.transcription p.selectedLanguage =
        none →
      af = true →
      (speakerRun p o lf af st).persistence = PersistStatus.failed ∧
      (speakerRun p o lf af st).db = st) := by
  refine ⟨?_, rfl, rfl, ?_⟩
  · have hps : ∀ ps : PersistStatus, ps = PersistStatus.new ∨
        ps = PersistStatus.existing ∨ ps = PersistStatus.failed := by
      intro ps
      cases ps
      · exact Or.inl rfl
      · exact Or.inr (Or.inl rfl)
      · exact Or.inr (Or.inr rfl)
    exact hps _
  · intro hnone haf
    subst haf
    constructor
    · show persistenceStatus lf true st p = _
      unfold persistenceStatus
      rw [hnone]
      rfl
    · show checkTranslation lf true st p (speakerInitialRefinedText p) = st
      rw [checkTranslation_not_found _ _ _ _ _ hnone]
      rfl

/-- Concrete navigation parameters used by the concrete instances below:
transcript "Hello", target language "es", raw translation "Hola". -/
def demoParams : RouteParams where
  transcription := "Hello"
  selectedLanguage := "es"
  translatedText := "Hola"

/-- Witness for C3: failing insert on an empty store still yields a
resolved result with the failed branch and the computed text. -/
theorem speaker_run_always_resolves_witness :
    (speakerRun demoParams RefineOutcome.error false true
        emptyDb).persistence = PersistStatus.failed ∧
    (speakerRun demoParams RefineOutcome.error false true
        emptyDb).text = refineTextWithOpenAI "Hola" RefineOutcome.error := by
  have h := speaker_run_always_resolves demoParams RefineOutcome.error false
    true emptyDb
  exact ⟨(h.2.2.2 rfl rfl).1, h.2.1⟩

/-- The refinement call failed, returned no extractable text, or returned
an empty string (all falsy in the source's truthiness check). -/
def refineFailedOrEmpty (o : RefineOutcome) : Prop :=
  o = RefineOutcome.error ∨ o = RefineOutcome.ok none ∨
    o = RefineOutcome.ok (some "")

/-- C4: when refinement fails or yields an empty value, the run still
completes, the displayed text is the raw translation, and every record in
the resulting store is either pre-existing or stores the raw
translation. -/
theorem refinement_fallback (p : RouteParams) (o : RefineOutcome)
    (lf af : Bool) (st : DbState) (h : refineFailedOrEmpty o) :
    (speakerRun p o lf af st).text = p.translatedText ∧
    ∀ r ∈ (speakerRun p o lf af st).db.translations,
      r ∈ st.translations ∨ r.translatedText = p.translatedText := by
  constructor
  · show refineTextWithOpenAI p.translatedText o = p.translatedText
    rcases h with h | h | h <;> subst h <;> simp [refineTextWithOpenAI]
  · have hdb : (speakerRun p o lf af st).db =
        checkTranslation lf af st p p.translatedText := rfl
    intro r hr
    rw [hdb] at hr
    cases hfind : checkIfTranslationExists lf st p.transcription
        p.selectedLanguage with
    | some r0 =>
        rw [checkTranslation_found _ _ _ _ _ _ hfind] at hr
        exact Or.inl hr
    | none =>
        rw [checkTranslation_not_found _ _ _ _ _ hfind] at hr
        cases af with
        | true => exact Or.inl hr
        | false =>
            simp only [addTranslation, Bool.false_eq_true, if_false,
              List.mem_append, List.mem_singleton] at hr
            rcases hr with hr | hr
            · exact Or.inl hr
            · subst hr
              exact Or.inr rfl

/-- Witness for C4: a failed refinement leaves the displayed text equal to
the raw translation. -/
theorem refinement_fallback_witness :
    refineFailedOrEmpty RefineOutcome.error ∧
    (speakerRun demoParams RefineOutcome.error false false
        emptyDb).text = "Hola" :=
  ⟨Or.inl rfl,
    (refinement_fallback demoParams RefineOutcome.error false false emptyDb
      (Or.inl rfl)).1⟩

/-- C5: every store operation converts an underlying failure into a plain
value: the lookup returns null, the list reads return `[]`, and the write
operations resolve leaving the database unchanged — none of them
propagates the exception. -/
theorem store_ops_swallow_failures (st : DbState)
    (orig lang txt : String) (idv : Nat) :
    checkIfTranslationExists true st orig lang = none ∧
    fetchTranslations true st = [] ∧
    fetchSettings true st = [] ∧
    addTranslation true st orig lang txt = st ∧
    updateSettings true st lang = st ∧
    deleteTranslation true st idv = st :=
  ⟨rfl, rfl, rfl, rfl, rfl, rfl⟩

/-- No usable source language is stored: the settings read yields no row,
or the first row's language column is null or empty. -/
def noStoredLanguage (settings : List SettingsRecord) : Prop :=
  match settings.head? with
  | none => True
  | some s => s.language = none ∨ s.language = some ""

/-- C6 counterexample: with no settings row, the transcription stage
resolves the source language to "en-GB", not to the default "en" that the
translation form resolves — the stages do not share one default. -/
theorem transcription_default_counterexample :
    transcriptionShortCode [] = "en-GB" ∧
    handleTranslateSource (loadSettings []) = "en" ∧
    transcriptionShortCode [] ≠ "en" := by
  decide

/-- C6 amended: with no stored language, the translation form and the
settings form resolve the source language to "en", while the transcription
stage resolves the short code to "en-GB" (whose mapped locale is also
"en-GB", via the unmapped-code fallback). -/
theorem source_language_defaults (settings : List SettingsRecord)
    (h : noStoredLanguage settings) :
    handleTranslateSource (loadSettings settings) = "en" ∧
    settingsFormLanguage settings = "en" ∧
    transcriptionShortCode settings = "en-GB" ∧
    mapLocale (transcriptionShortCode settings) = "en-GB" := by
  unfold noStoredLanguage at h
  cases hh : settings.head? with
  | none =>
      refine ⟨?_, ?_, ?_, ?_⟩
      · simp [loadSettings, hh, handleTranslateSource, jsOr]
      · simp [settingsFormLanguage, hh]
      · simp [transcriptionShortCode, hh]
      · rw [show transcriptionShortCode settings = "en-GB" by
          simp [transcriptionShortCode, hh]]
        decide
  | some s =>
      rw [hh] at h
      have hlang : jsOr s.language "en" = "en" := by
        rcases h with h | h <;> simp [jsOr, h]
      have hshort : transcriptionShortCode settings = "en-GB" := by
        rcases h with h | h <;> simp [transcriptionShortCode, hh, h]
      refine ⟨?_, ?_, hshort, ?_⟩
      · have hsrc : handleTranslateSource (loadSettings settings) =
            jsOr (some (jsOr s.language "en")) "en" := by
          simp [loadSettings, hh, handleTranslateSource]
        rw [hsrc, hlang]
        decide
      · simp [settingsFormLanguage, hh, hlang]
      · rw [hshort]
        decide

/-- Witness for C6 (amended) on an empty settings read. -/
theorem source_language_defaults_witness :
    handleTranslateSource (loadSettings []) = "en" ∧
    settingsFormLanguage [] = "en" ∧
    transcriptionShortCode [] = "en-GB" ∧
    mapLocale (transcriptionShortCode []) = "en-GB" :=
  source_language_defaults [] trivial

/-- C7: on a freshly initialized store (setupDatabase then
loadInitialData, no updateSettings), reading the settings yields exactly
the singleton default row (1, "en"). -/
theorem fresh_store_settings_default :
    fetchSettings false initDb = [{ id := 1, language := some "en" }] :=
  rfl

/-- C8 counterexample: an empty capture artifact (a zero-byte file that
exists) is not rejected — the transcription request is issued anyway,
with empty audio content. -/
theorem empty_audio_request_counterexample :
    sendAudioForTranscription [] Platform.ios
      { recordingUri := "file:recording.wav", fileExists := true,
        base64Content := "" } =
      TranscribeAction.request "en-GB" "LINEAR16" 44100 "" := by
  decide

/-- C8 amended: when the recording URI is absent (falsy) or the audio
file does not exist, no transcription request is issued; the
unreachable-file case aborts with the audio-unavailable alert.  (An empty
but existing file is not rejected — see the counterexample.) -/
theorem no_request_when_audio_unavailable (settings : List SettingsRecord)
    (platform : Platform) (inp : CaptureInput)
    (h : inp.recordingUri = "" ∨ inp.fileExists = false) :
    (∀ lc enc : String, ∀ sr : Nat, ∀ c : String,
      sendAudioForTranscription settings platform inp ≠
        TranscribeAction.request lc enc sr c) ∧
    (inp.recordingUri ≠ "" →
      sendAudioForTranscription settings platform inp =
        TranscribeAction.audioUnavailable) := by
  unfold sendAudioForTranscription
  by_cases hu : inp.recordingUri = ""
  · constructor
    · intro lc enc sr c
      simp [hu]
    · intro hcontra
      exact absurd hu hcontra
  · have hf : inp.fileExists = false := h.resolve_left hu
    constructor
    · intro lc enc sr c
      simp [hu, hf]
    · intro _
      simp [hu, hf]

/-- Witness for C8 (amended): a missing file yields the audio-unavailable
abort, and an absent URI never issues the request. -/
theorem no_request_when_audio_unavailable_witness :
    sendAudioForTranscription [] Platform.ios
      { recordingUri := "file:gone.wav", fileExists := false,
        base64Content := "abc" } = TranscribeAction.audioUnavailable ∧
    sendAudioForTranscription [] Platform.android
      { recordingUri := "", fileExists := true, base64Content := "abc" } ≠
      TranscribeAction.request "en-GB" "WEBM_OPUS" 16000 "abc" :=
  ⟨(no_request_when_audio_unavailable [] Platform.ios
      { recordingUri := "file:gone.wav", fileExists := false,
        base64Content := "abc" } (Or.inr rfl)).2 (by decide),
   (no_request_when_audio_unavailable [] Platform.android
      { recordingUri := "", fileExists := true, base64Content := "abc" }
      (Or.inl rfl)).1 "en-GB" "WEBM_OPUS" 16000 "abc"⟩

/-- C9: deleting by id keeps exactly the rows whose id differs, is a
no-op (and raises no error) when no row has that id, and never touches
the settings table. -/
theorem deleteTranslation_by_id (st : DbState) (idv : Nat) :
    (∀ r : TranslationRecord,
      r ∈ (deleteTranslation false st idv).translations ↔
        r ∈ st.translations ∧ r.id ≠ idv) ∧
    ((∀ r ∈ st.translations, r.id ≠ idv) →
      deleteTranslation false st idv = st) ∧
    (deleteTranslation false st idv).settings = st.settings := by
  refine ⟨?_, ?_, rfl⟩
  · intro r
    simp [deleteTranslation, List.mem_filter]
  · intro h
    show { st with translations := _ } = st
    have hfilter : (st.translations.filter fun r => r.id != idv) =
        st.translations := by
      rw [List.filter_eq_self]
      intro a ha
      simpa using h a ha
    rw [hfilter]

/-- Witness for C9: deleting id 999 from an empty store is a no-op. -/
theorem deleteTranslation_by_id_witness :
    deleteTranslation false emptyDb 999 = emptyDb :=
  (deleteTranslation_by_id emptyDb 999).2.1 (by simp [emptyDb])

/-- C10: when the lookup finds no record, the row the run inserts stores
the raw translation handed to the screen — the value of the refined-text
state at effect start — whatever the refinement outcome, including a
successful refinement returning different text. -/
theorem persisted_text_is_raw_translation (p : RouteParams)
    (o : RefineOutcome) (st : DbState)
    (h : checkIfTranslationExists false st p.transcription
      p.selectedLanguage = none) :
    (speakerRun p o false false st).db.translations =
      st.translations ++
        [{ id := st.nextId,
           originalText := p.transcription,
           language := p.selectedLanguage,
           translatedText := p.translatedText }] := by
  have hdb : (speakerRun p o false false st).db =
      checkTranslation false false st p p.translatedText := rfl
  rw [hdb, checkTranslation_not_found _ _ _ _ _ h]
  rfl

/-- Witness for C10: refinement succeeds with different text, yet the
stored row holds the raw translation. -/
theorem persisted_text_is_raw_translation_witness :
    (speakerRun demoParams (RefineOutcome.ok (some "Hola!")) false false
        emptyDb).db.translations =
      [{ id := 1, originalText := "Hello", language := "es",
         translatedText := "Hola" }] :=
  persisted_text_is_raw_translation demoParams
    (RefineOutcome.ok (some "Hola!")) emptyDb rfl

end InstaTranslate
